import Mathlib

/-!
# Verification of the Visual Analyzer (`visual-analysis-tool.js`)

Shallow embedding of the single-file Node.js tool that scans a directory of
baseline screenshots and derives a list of typed issues in four phases:
size analysis, missing-file check, layout-pattern heuristics, and
recommendation generation.

Modelling conventions:
* The baseline directory is a `DirState := Option (List (String × Nat))`:
  `none` means the directory does not exist (so `fs.existsSync` answers
  `false` and `fs.readdirSync` throws `ENOENT`), `some entries` is the
  directory listing as pairs of file name and byte size.
* `fs.statSync(p).size` is only ever invoked by the source under an
  `fs.existsSync(p)` guard, so its embedding `statSyncSize` is total
  (the `0` default for a missing file is unreachable in every use).
* JavaScript objects used as string-keyed maps (`sizes`, `sizes[page]`)
  are embedded as association lists with insertion-order keys and
  overwrite-on-assign (`objInsert` / `objGet`), which is exactly the
  enumeration order `Object.entries` / `Object.values` observes.
* JavaScript `Number` arithmetic on byte sizes (`max / min > 3` and
  `ratio.toFixed(1)`) is embedded in exact arithmetic over `ℕ`/`ℚ`; this
  agrees with IEEE doubles on all byte sizes that arise in practice
  (exact below 2 ^ 52), and the `min = 0` corner (`Infinity`/`NaN`) is
  reproduced case by case in `ratioGT3` / `jsToFixed1`.
* Phase-3 directory listing failure is an `Except String` error; the
  error value carries the analyzer state at the moment of the throw,
  mirroring the fact that `this.issues` retains everything appended
  before `readdirSync` raised.
-/

/-- An issue record as pushed onto `this.issues`; optional fields are
present only for the issue types that set them. -/
structure Issue where
  type : String
  severity : String
  description : String
  page : Option String := none
  device : Option String := none
  devices : Option (List String) := none
  sizes : Option (List (String × Nat)) := none
  filename : Option String := none
deriving Repr, DecidableEq

/-- The baseline directory: `none` when it does not exist, otherwise the
listing as (file name, byte size) pairs. -/
abbrev DirState := Option (List (String × Nat))

/-- `fs.existsSync(path.join(baselinesDir, filename))`: `false` both for a
missing file and for a missing directory. -/
def existsSync (dir : DirState) (filename : String) : Bool :=
  match dir with
  | none => false
  | some entries => entries.any (fun e => e.1 == filename)

/-- `fs.statSync(path.join(baselinesDir, filename)).size`. Only called by the
source under an `existsSync` guard; the `0` for an absent file is unreachable. -/
def statSyncSize (dir : DirState) (filename : String) : Nat :=
  match dir with
  | none => 0
  | some entries => (((entries.find? (fun e => e.1 == filename)).map (fun e => e.2)).getD 0)

/-- The naming convention: `` `${device}-${page}-baseline.png` ``. -/
def expectedFilename (device page : String) : String :=
  device ++ "-" ++ page ++ "-baseline.png"

/-- JS object assignment `obj[k] = v` on a string-keyed object: overwrite the
existing key in place, otherwise append (string keys keep insertion order). -/
def objInsert {α : Type} : List (String × α) → String → α → List (String × α)
  | [], k, v => [(k, v)]
  | e :: rest, k, v => if e.1 == k then (k, v) :: rest else e :: objInsert rest k v

/-- JS object read `obj[k]`: `none` plays the role of `undefined`. -/
def objGet {α : Type} : List (String × α) → String → Option α
  | [], _ => none
  | e :: rest, k => if e.1 == k then some e.2 else objGet rest k

/-- JS truthiness of `obj[k]` for a numeric field: `undefined` and `0` are
falsy, any other number is truthy. -/
def jsTruthy (v : Option Nat) : Bool :=
  match v with
  | none => false
  | some n => n != 0

/-- `Math.max(...arr)` for the nonempty case (the source guards `arr.length > 1`). -/
def listMax : List Nat → Nat
  | [] => 0
  | x :: xs => xs.foldl Nat.max x

/-- `Math.min(...arr)` for the nonempty case. -/
def listMin : List Nat → Nat
  | [] => 0
  | x :: xs => xs.foldl Nat.min x

/-- The test `max / min > 3` on JS numbers, in exact arithmetic.
For `min > 0` this is `(max : ℚ) / min > 3`; for `min = 0` JS computes
`Infinity > 3` (true) when `max > 0` and `NaN > 3` (false) when `max = 0`:
all cases coincide with `3 * min < max` on `ℕ`. -/
def ratioGT3 (mx mn : Nat) : Bool :=
  3 * mn < mx

/-- `(max / min).toFixed(1)` on JS numbers, in exact arithmetic: round the
rational `mx / mn` to one decimal, half away from zero (the `toFixed`
tie-breaking rule), rendered as `"d.d"`. `min = 0` reproduces JS
`Infinity` (`max > 0`) and `NaN` (`max = 0`). -/
def jsToFixed1 (mx mn : Nat) : String :=
  if mn == 0 then (if mx == 0 then "NaN" else "Infinity")
  else
    let t := (20 * mx + mn) / (2 * mn)
    toString (t / 10) ++ "." ++ toString (t % 10)

/-- The analyzer instance: the constructor's fixed configuration plus the
mutable `this.issues` accumulator. -/
structure VisualAnalyzer where
  baselinesDir : String
  devices : List String
  pages : List String
  issues : List Issue
deriving Repr, DecidableEq

/-- `new VisualAnalyzer()`: the hard-coded reference configuration and an
empty issue list. -/
def VisualAnalyzer.new : VisualAnalyzer :=
  { baselinesDir := "visual-tests/baselines"
  , devices := ["Mobile", "Mobile-Large", "Tablet", "Desktop"]
  , pages := ["addpagehere", "addpagehere", "addpagehere", "addpagehere", "addpagehere"]
  , issues := [] }

/-- The inner loop of `analyzeSizes`' first pass: build `sizes[page]`, i.e.
for each device in order, if the expected baseline exists record
`sizes[page][device] = stats.size`. -/
def collectPageSizes (devices : List String) (dir : DirState) (page : String) :
    List (String × Nat) :=
  devices.foldl
    (fun acc device =>
      let filename := expectedFilename device page
      if existsSync dir filename then objInsert acc device (statSyncSize dir filename)
      else acc)
    []

/-- The first pass of `analyzeSizes`: the whole `sizes` object. Duplicate page
names overwrite their own (identically recomputed) entry, collapsing to a
single key per distinct page name. -/
def buildSizes (a : VisualAnalyzer) (dir : DirState) : List (String × List (String × Nat)) :=
  a.pages.foldl
    (fun sizes page => objInsert sizes page (collectPageSizes a.devices dir page))
    []

/-- The `MISSING_DEVICE_SUPPORT` issue pushed by the device-coverage check:
the `devices` field is `this.devices.filter(d => !pageSizes[d])`, i.e. the
configured devices whose entry is absent (`undefined`) or `0` (both falsy). -/
def mdsIssue (a : VisualAnalyzer) (pageSizes : List (String × Nat)) (page : String) : Issue :=
  { type := "MISSING_DEVICE_SUPPORT"
  , page := some page
  , severity := "HIGH"
  , description := page ++ " page missing on some devices"
  , devices := some (a.devices.filter (fun d => !(jsTruthy (objGet pageSizes d)))) }

/-- The `LAYOUT_INCONSISTENCY` issue pushed by the size-ratio check, with the
`toFixed(1)`-rounded ratio in the description and the size map attached. -/
def liIssue (pageSizes : List (String × Nat)) (page : String) : Issue :=
  { type := "LAYOUT_INCONSISTENCY"
  , page := some page
  , severity := "MEDIUM"
  , description :=
      "Extreme content differences across devices ("
        ++ jsToFixed1 (listMax (pageSizes.map (fun e => e.2))) (listMin (pageSizes.map (fun e => e.2)))
        ++ "x variation)"
  , sizes := some pageSizes }

/-- The per-page body of `analyzeSizes`' second pass: the device-coverage
check (`deviceSizes.length < 4` pushes `MISSING_DEVICE_SUPPORT`) followed by
the size-ratio check (`sizes_array.length > 1 && max/min > 3` pushes
`LAYOUT_INCONSISTENCY`). `Object.entries`/`Object.values` of `sizes[page]`
are the association list itself and its value column. -/
def sizeChecksFor (a : VisualAnalyzer) (pageSizes : List (String × Nat)) (page : String) :
    List Issue :=
  (if pageSizes.length < 4 then [mdsIssue a pageSizes page] else []) ++
    (if 1 < (pageSizes.map (fun e => e.2)).length then
      (if ratioGT3 (listMax (pageSizes.map (fun e => e.2))) (listMin (pageSizes.map (fun e => e.2)))
        then [liIssue pageSizes page] else [])
     else [])

/-- All issues pushed by `analyzeSizes` in one run: the second pass iterates
the page list entry by entry (so duplicate page names re-run their checks),
reading `sizes[page]` from the collapsed object. The `.getD []` default is
unreachable: every iterated page is a key of `sizes`. -/
def sizeIssues (a : VisualAnalyzer) (dir : DirState) : List Issue :=
  let sizes := buildSizes a dir
  a.pages.flatMap (fun page => sizeChecksFor a ((objGet sizes page).getD []) page)

/-- Phase 1, `analyzeSizes()`: append its issues to `this.issues`. -/
def analyzeSizes (a : VisualAnalyzer) (dir : DirState) : VisualAnalyzer :=
  { a with issues := a.issues ++ sizeIssues a dir }

/-- The `MISSING_BASELINE` issue pushed by `checkMissingFiles` for one
device/page combination. -/
def missingBaselineIssue (device page : String) : Issue :=
  { type := "MISSING_BASELINE"
  , page := some page
  , device := some device
  , severity := "HIGH"
  , description := "Missing baseline for " ++ device ++ " " ++ page
  , filename := some (expectedFilename device page) }

/-- All issues pushed by `checkMissingFiles`: devices outer, pages inner; one
issue per combination whose expected file does not exist. (The `missing`
counter is only printed and is the length of this list.) -/
def missingFileIssues (a : VisualAnalyzer) (dir : DirState) : List Issue :=
  a.devices.flatMap (fun device =>
    a.pages.filterMap (fun page =>
      if existsSync dir (expectedFilename device page) then none
      else some (missingBaselineIssue device page)))

/-- Phase 2, `checkMissingFiles()`: append its issues to `this.issues`. -/
def checkMissingFiles (a : VisualAnalyzer) (dir : DirState) : VisualAnalyzer :=
  { a with issues := a.issues ++ missingFileIssues a dir }

/-- The `ENOENT` error `fs.readdirSync` raises on a missing directory. -/
def enoentMessage : String :=
  "ENOENT: no such file or directory"

/-- `fs.readdirSync(this.baselinesDir)`: the file names of the listing, or an
uncaught `ENOENT` error when the directory does not exist. -/
def readdirSync (dir : DirState) : Except String (List String) :=
  match dir with
  | none => Except.error enoentMessage
  | some entries => Except.ok (entries.map (fun e => e.1))

/-- JS `haystack.includes(needle)` on strings, via the character lists. -/
def charsHasPre : List Char → List Char → Bool
  | [], _ => true
  | _ :: _, [] => false
  | p :: ps, c :: cs => p == c && charsHasPre ps cs

/-- Does `pat` occur as a contiguous run inside the second list? -/
def charsIncludes (pat : List Char) : List Char → Bool
  | [] => charsHasPre pat []
  | c :: cs => charsHasPre pat (c :: cs) || charsIncludes pat cs

/-- JS `s.includes(pat)`. -/
def strIncludes (s pat : String) : Bool :=
  charsIncludes pat.toList s.toList

/-- The `MOBILE_NAV_MISSING` issue (fixed fields). -/
def mobileNavIssue : Issue :=
  { type := "MOBILE_NAV_MISSING"
  , severity := "HIGH"
  , description := "No mobile navigation screenshots found - hamburger menu testing required" }

/-- The `INCOMPLETE_HOMEPAGE_TESTING` issue (fixed fields). -/
def incompleteHomepageIssue : Issue :=
  { type := "INCOMPLETE_HOMEPAGE_TESTING"
  , severity := "MEDIUM"
  , description := "Homepage not tested on all device sizes" }

/-- The issues pushed by `analyzeLayoutPatterns` given the directory listing:
`MOBILE_NAV_MISSING` when no file name includes both `nav` and `Mobile`,
then `INCOMPLETE_HOMEPAGE_TESTING` when fewer than 4 file names include both
`homepage` and `baseline`. -/
def layoutPatternIssues (names : List String) : List Issue :=
  let mobileNavFiles := names.filter (fun file => strIncludes file "nav" && strIncludes file "Mobile")
  let navIssues : List Issue :=
    if mobileNavFiles.length == 0 then [mobileNavIssue] else []
  let homepageFiles := names.filter (fun file => strIncludes file "homepage" && strIncludes file "baseline")
  let homepageIssues : List Issue :=
    if homepageFiles.length < 4 then [incompleteHomepageIssue] else []
  navIssues ++ homepageIssues

/-- Phase 3, `analyzeLayoutPatterns()`: the two `readdirSync` calls throw
`ENOENT` (uncaught) when the baseline directory does not exist; otherwise
append the pattern issues. -/
def analyzeLayoutPatterns (a : VisualAnalyzer) (dir : DirState) :
    Except String VisualAnalyzer :=
  match readdirSync dir with
  | Except.error e => Except.error e
  | Except.ok names => Except.ok { a with issues := a.issues ++ layoutPatternIssues names }

/-- The counts printed by `generateRecommendations`' final `ANALYSIS SUMMARY`
block. -/
structure Summary where
  criticalCount : Nat
  mediumCount : Nat
  totalIssues : Nat
  devicesTested : Nat
  pagesAnalyzed : Nat
deriving Repr, DecidableEq

/-- Phase 4, `generateRecommendations()`: a pure read-and-print phase. It
groups `this.issues` by severity (the `low` group is computed but never
printed), pushes nothing, and its printed summary carries these counts. -/
def generateRecommendations (a : VisualAnalyzer) : VisualAnalyzer × Summary :=
  let critical := a.issues.filter (fun i => i.severity == "HIGH")
  let medium := a.issues.filter (fun i => i.severity == "MEDIUM")
  (a,
   { criticalCount := critical.length
   , mediumCount := medium.length
   , totalIssues := a.issues.length
   , devicesTested := a.devices.length
   , pagesAnalyzed := a.pages.length })

/-- `analyze()`: the four phases in order. On the Phase-3 `ENOENT` throw the
error propagates uncaught; the error value carries the analyzer state at the
moment of the throw (`this.issues` retains Phases 1-2). On success it
returns `this.issues` (plus the final state and the printed summary). -/
def VisualAnalyzer.analyze (a : VisualAnalyzer) (dir : DirState) :
    Except (String × VisualAnalyzer) (List Issue × VisualAnalyzer × Summary) :=
  let a1 := analyzeSizes a dir
  let a2 := checkMissingFiles a1 dir
  match analyzeLayoutPatterns a2 dir with
  | Except.error e => Except.error (e, a2)
  | Except.ok a3 =>
      let (a4, s) := generateRecommendations a3
      Except.ok (a4.issues, a4, s)

/-- Outcome of the standalone entry point: `completed` prints the final
`🎯 Visual analysis complete! Ready for fixes.` line, `failed` reports the
uncaught error to standard error and prints no completion line. -/
inductive RunOutcome where
  | completed (issues : List Issue) (s : Summary)
  | failed (err : String)
deriving Repr, DecidableEq

/-- The `require.main === module` entry point: construct a fresh analyzer,
run `analyze`, print the completion line on success, report the error on
failure (`.catch(console.error)`). -/
def runMain (dir : DirState) : RunOutcome :=
  match VisualAnalyzer.new.analyze dir with
  | Except.ok (issues, _, s) => RunOutcome.completed issues s
  | Except.error (e, _) => RunOutcome.failed e

/-- Whether the run printed the completion line (only `completed` does). -/
def completionPrinted : RunOutcome → Bool
  | RunOutcome.completed _ _ => true
  | RunOutcome.failed _ => false

/-! ### Concrete configurations and directory states used as test inputs -/

/-- The reference analyzer with the placeholder page list replaced by the
single page `home` (the spec's boundary examples are per-page). -/
def aHome : VisualAnalyzer :=
  { VisualAnalyzer.new with pages := ["home"] }

/-- Two recorded sizes 100 and 300 bytes: ratio exactly 3. -/
def dir300 : DirState :=
  some [("Mobile-home-baseline.png", 100), ("Tablet-home-baseline.png", 300)]

/-- Two recorded sizes 100 and 301 bytes: ratio 3.01. -/
def dir301 : DirState :=
  some [("Mobile-home-baseline.png", 100), ("Tablet-home-baseline.png", 301)]

/-- Three recorded sizes, one of them a zero-byte file. -/
def dir0 : DirState :=
  some [("Mobile-home-baseline.png", 0), ("Mobile-Large-home-baseline.png", 10),
        ("Tablet-home-baseline.png", 10)]

/-- All four devices recorded for page `home`. -/
def dirAll4 : DirState :=
  some [("Mobile-home-baseline.png", 10), ("Mobile-Large-home-baseline.png", 12),
        ("Tablet-home-baseline.png", 14), ("Desktop-home-baseline.png", 16)]

/-- A directory containing only `Desktop-home-baseline.png`. -/
def dirD : DirState :=
  some [("Desktop-home-baseline.png", 50)]

/-- The same directory plus `Mobile-navbar-baseline.png`. -/
def dirDM : DirState :=
  some [("Desktop-home-baseline.png", 50), ("Mobile-navbar-baseline.png", 60)]

/-- Exactly 3 file names containing both `homepage` and `baseline`. -/
def names3 : List String :=
  ["Mobile-homepage-baseline.png", "Tablet-homepage-baseline.png",
   "Desktop-homepage-baseline.png"]

/-- Exactly 4 file names containing both `homepage` and `baseline`. -/
def names4 : List String :=
  ["Mobile-homepage-baseline.png", "Tablet-homepage-baseline.png",
   "Desktop-homepage-baseline.png", "Mobile-Large-homepage-baseline.png"]

/-- A hand-edited analyzer (empty device and page lists) for a run that
produces no issues at all. -/
def aW : VisualAnalyzer :=
  { baselinesDir := "visual-tests/baselines", devices := [], pages := [], issues := [] }

/-- A directory whose listing satisfies both Phase-3 heuristics. -/
def dirW : DirState :=
  some [("Mobile-nav-homepage-baseline.png", 1), ("Tablet-homepage-baseline.png", 2),
        ("Desktop-homepage-baseline.png", 3), ("Mobile-Large-homepage-baseline.png", 4)]

/-- The summary of a run with no issues under the `aW` configuration. -/
def sW : Summary :=
  { criticalCount := 0, mediumCount := 0, totalIssues := 0
  , devicesTested := 0, pagesAnalyzed := 0 }

/-! ### Association-list lemmas for the JS-object embedding -/

theorem objGet_objInsert_self {α : Type} (obj : List (String × α)) (k : String) (v : α) :
    objGet (objInsert obj k v) k = some v := by
  induction obj with
  | nil => simp [objInsert, objGet]
  | cons e rest ih =>
    by_cases he : (e.1 == k) = true
    · simp [objInsert, he, objGet]
    · simp [objInsert, he, objGet, ih]

theorem objGet_objInsert_of_ne {α : Type} (obj : List (String × α)) (k k' : String) (v : α)
    (h : k' ≠ k) : objGet (objInsert obj k v) k' = objGet obj k' := by
  have h1 : (k == k') = false := beq_eq_false_iff_ne.mpr (Ne.symm h)
  induction obj with
  | nil => simp [objInsert, objGet, h1]
  | cons e rest ih =>
    by_cases he : (e.1 == k) = true
    · have hek : e.1 = k := by simpa [beq_iff_eq] using he
      have h2 : (e.1 == k') = false := by rw [hek]; exact h1
      simp [objInsert, he, objGet, h1, h2]
    · simp [objInsert, he, objGet, ih]

theorem objGet_foldl_objInsert {α : Type} (f : String → α) :
    ∀ (ps : List String) (acc : List (String × α)) (k : String),
      k ∈ ps ∨ objGet acc k = some (f k) →
      objGet (ps.foldl (fun s p => objInsert s p (f p)) acc) k = some (f k) := by
  intro ps
  induction ps with
  | nil =>
    intro acc k h
    rcases h with h | h
    · exact absurd h (List.not_mem_nil k)
    · simpa using h
  | cons p rest ih =>
    intro acc k h
    rw [List.foldl_cons]
    apply ih
    by_cases hk : k = p
    · subst hk
      exact Or.inr (objGet_objInsert_self acc k (f k))
    · rcases h with h | h
      · rcases List.mem_cons.mp h with h | h
        · exact absurd h hk
        · exact Or.inl h
      · exact Or.inr (by rw [objGet_objInsert_of_ne acc p k (f p) hk]; exact h)

theorem objGet_buildSizes (a : VisualAnalyzer) (dir : DirState) (page : String)
    (h : page ∈ a.pages) :
    objGet (buildSizes a dir) page = some (collectPageSizes a.devices dir page) :=
  objGet_foldl_objInsert (fun p => collectPageSizes a.devices dir p) a.pages [] page (Or.inl h)

/-! ### Structure of the Phase-1 issue list -/

theorem flatMap_congr_mem {α β : Type} (l : List α) (f g : α → List β)
    (h : ∀ x ∈ l, f x = g x) : l.flatMap f = l.flatMap g := by
  induction l with
  | nil => rfl
  | cons x rest ih =>
    rw [List.flatMap_cons, List.flatMap_cons, h x (List.mem_cons_self x rest),
      ih (fun y hy => h y (List.mem_cons_of_mem x hy))]

theorem sizeIssues_eq (a : VisualAnalyzer) (dir : DirState) :
    sizeIssues a dir
      = a.pages.flatMap
          (fun page => sizeChecksFor a (collectPageSizes a.devices dir page) page) := by
  simp only [sizeIssues]
  apply flatMap_congr_mem
  intro p hp
  rw [objGet_buildSizes a dir p hp, Option.getD_some]

theorem mem_sizeChecksFor {a : VisualAnalyzer} {ps : List (String × Nat)} {p : String}
    {i : Issue} :
    i ∈ sizeChecksFor a ps p ↔
      (ps.length < 4 ∧ i = mdsIssue a ps p)
      ∨ (1 < ps.length
          ∧ 3 * listMin (ps.map (fun e => e.2)) < listMax (ps.map (fun e => e.2))
          ∧ i = liIssue ps p) := by
  unfold sizeChecksFor ratioGT3
  by_cases h1 : ps.length < 4 <;> by_cases h2 : 1 < ps.length <;>
    by_cases h3 : 3 * listMin (ps.map (fun e => e.2)) < listMax (ps.map (fun e => e.2)) <;>
    simp [h1, h2, h3, List.length_map]

theorem mem_sizeIssues {a : VisualAnalyzer} {dir : DirState} {i : Issue} :
    i ∈ sizeIssues a dir ↔
      ∃ p, p ∈ a.pages ∧ i ∈ sizeChecksFor a (collectPageSizes a.devices dir p) p := by
  rw [sizeIssues_eq]
  simp [List.mem_flatMap]

/-! ### Structure of the Phase-2 and Phase-3 issue lists -/

theorem mem_missingFileIssues {a : VisualAnalyzer} {dir : DirState} {i : Issue} :
    i ∈ missingFileIssues a dir ↔
      ∃ device, device ∈ a.devices ∧ ∃ page, page ∈ a.pages ∧
        existsSync dir (expectedFilename device page) = false ∧
        i = missingBaselineIssue device page := by
  unfold missingFileIssues
  simp only [List.mem_flatMap, List.mem_filterMap]
  constructor
  · rintro ⟨d, hd, p, hp, hfp⟩
    by_cases hex : existsSync dir (expectedFilename d p) = true
    · simp [hex] at hfp
    · refine ⟨d, hd, p, hp, by simpa using hex, ?_⟩
      simp [hex] at hfp
      exact hfp.symm
  · rintro ⟨d, hd, p, hp, hex, rfl⟩
    exact ⟨d, hd, p, hp, by simp [hex]⟩

theorem mem_layoutPatternIssues {names : List String} {i : Issue} :
    i ∈ layoutPatternIssues names ↔
      ((names.filter (fun f => strIncludes f "nav" && strIncludes f "Mobile")).length = 0
        ∧ i = mobileNavIssue)
      ∨ ((names.filter (fun f => strIncludes f "homepage" && strIncludes f "baseline")).length < 4
        ∧ i = incompleteHomepageIssue) := by
  unfold layoutPatternIssues
  by_cases h1 :
      (names.filter (fun f => strIncludes f "nav" && strIncludes f "Mobile")).length = 0 <;>
    by_cases h2 :
      (names.filter (fun f => strIncludes f "homepage" && strIncludes f "baseline")).length < 4 <;>
    simp [h1, h2]

/-! ### Severity bookkeeping -/

theorem sev_of_mem_sizeChecksFor {a : VisualAnalyzer} {ps : List (String × Nat)} {p : String}
    {i : Issue} (h : i ∈ sizeChecksFor a ps p) :
    i.severity = "HIGH" ∨ i.severity = "MEDIUM" := by
  rcases mem_sizeChecksFor.mp h with ⟨_, rfl⟩ | ⟨_, _, rfl⟩
  · exact Or.inl rfl
  · exact Or.inr rfl

theorem page_of_mem_sizeChecksFor {a : VisualAnalyzer} {ps : List (String × Nat)} {p : String}
    {i : Issue} (h : i ∈ sizeChecksFor a ps p) : i.page = some p := by
  rcases mem_sizeChecksFor.mp h with ⟨_, rfl⟩ | ⟨_, _, rfl⟩
  · rfl
  · rfl

theorem sev_of_mem_sizeIssues {a : VisualAnalyzer} {dir : DirState} {i : Issue}
    (h : i ∈ sizeIssues a dir) : i.severity = "HIGH" ∨ i.severity = "MEDIUM" := by
  obtain ⟨p, _, hmem⟩ := mem_sizeIssues.mp h
  exact sev_of_mem_sizeChecksFor hmem

theorem sev_of_mem_missingFileIssues {a : VisualAnalyzer} {dir : DirState} {i : Issue}
    (h : i ∈ missingFileIssues a dir) : i.severity = "HIGH" := by
  obtain ⟨d, _, p, _, _, rfl⟩ := mem_missingFileIssues.mp h
  rfl

theorem sev_of_mem_layoutPatternIssues {names : List String} {i : Issue}
    (h : i ∈ layoutPatternIssues names) : i.severity = "HIGH" ∨ i.severity = "MEDIUM" := by
  rcases mem_layoutPatternIssues.mp h with ⟨_, rfl⟩ | ⟨_, rfl⟩
  · exact Or.inl rfl
  · exact Or.inr rfl

/-- Issues that are each `HIGH` or `MEDIUM` are counted exactly once by the
two severity filters of `generateRecommendations`. -/
theorem length_filter_high_add_medium (l : List Issue)
    (h : ∀ i ∈ l, i.severity = "HIGH" ∨ i.severity = "MEDIUM") :
    (l.filter (fun i => i.severity == "HIGH")).length
      + (l.filter (fun i => i.severity == "MEDIUM")).length = l.length := by
  induction l with
  | nil => rfl
  | cons i rest ih =>
    have hi := h i (List.mem_cons_self i rest)
    have hrest := ih (fun j hj => h j (List.mem_cons_of_mem i hj))
    rcases hi with hi | hi <;>
      simp only [List.filter_cons, hi, List.length_cons] <;>
      simp <;> omega

/-! ### Claims -/

/-- C1: For every page with at least two recorded byte sizes (and a nonzero
minimum size), a `LAYOUT_INCONSISTENCY` issue with severity `MEDIUM` is
emitted for that page by Phase 1 iff `max(sizes) / min(sizes)` is strictly
greater than 3. Concretely: sizes 100 and 300 bytes (ratio exactly 3.0) emit
no such issue, while sizes 100 and 301 bytes emit it with the ratio rounded
to one decimal place (`3.0`) in the description and the full per-device size
map attached. -/
theorem C1_layout_inconsistency_threshold :
    (∀ (a : VisualAnalyzer) (dir : DirState) (page : String),
        page ∈ a.pages →
        2 ≤ (collectPageSizes a.devices dir page).length →
        0 < listMin ((collectPageSizes a.devices dir page).map (fun e => e.2)) →
        ((∃ i, i ∈ sizeIssues a dir ∧ i.type = "LAYOUT_INCONSISTENCY"
            ∧ i.severity = "MEDIUM" ∧ i.page = some page) ↔
          3 < (listMax ((collectPageSizes a.devices dir page).map (fun e => e.2)) : ℚ)
                / (listMin ((collectPageSizes a.devices dir page).map (fun e => e.2)) : ℚ)))
    ∧ (sizeIssues aHome dir300).any (fun i => i.type == "LAYOUT_INCONSISTENCY") = false
    ∧ (sizeIssues aHome dir301).any (fun i =>
        i.type == "LAYOUT_INCONSISTENCY" && i.severity == "MEDIUM"
          && i.description == "Extreme content differences across devices (3.0x variation)"
          && i.sizes == some [("Mobile", 100), ("Tablet", 301)]) = true := by
  refine ⟨?_, by decide, by decide⟩
  intro a dir page hpage h2 hmin
  constructor
  · rintro ⟨i, hi, htype, hsev, hpg⟩
    obtain ⟨q, hq, hiq⟩ := mem_sizeIssues.mp hi
    rcases mem_sizeChecksFor.mp hiq with ⟨_, rfl⟩ | ⟨hlen, hratio, rfl⟩
    · exact absurd htype (by simp [mdsIssue])
    · have hqp : q = page := by simpa [liIssue] using hpg
      subst hqp
      rw [lt_div_iff₀ (by exact_mod_cast hmin)]
      exact_mod_cast hratio
  · intro hratio
    refine ⟨liIssue (collectPageSizes a.devices dir page) page,
      ?_, rfl, rfl, rfl⟩
    apply mem_sizeIssues.mpr
    refine ⟨page, hpage, ?_⟩
    apply mem_sizeChecksFor.mpr
    refine Or.inr ⟨by omega, ?_, rfl⟩
    have hq := (lt_div_iff₀ (by exact_mod_cast hmin)).mp hratio
    exact_mod_cast hq

/-- Witness for C1 at the concrete input `aHome` / `dir301` (sizes 100, 301):
the general threshold equivalence applied at page `home`. -/
theorem C1_witness :
    ∃ i, i ∈ sizeIssues aHome dir301 ∧ i.type = "LAYOUT_INCONSISTENCY"
      ∧ i.severity = "MEDIUM" ∧ i.page = some "home" := by
  have h := C1_layout_inconsistency_threshold.1 aHome dir301 "home"
    (by decide) (by decide) (by decide)
  apply h.mpr
  have hmx : listMax ((collectPageSizes aHome.devices dir301 "home").map (fun e => e.2)) = 301 := by
    decide
  have hmn : listMin ((collectPageSizes aHome.devices dir301 "home").map (fun e => e.2)) = 100 := by
    decide
  rw [hmx, hmn]
  norm_num

/-- C2 counterexample: with `dir0` (a zero-byte `Mobile` baseline, plus
`Mobile-Large` and `Tablet` recorded, `Desktop` absent) the emitted
`MISSING_DEVICE_SUPPORT` issue's `devices` field is `["Mobile", "Desktop"]`,
yet the only configured device with no recorded size is `Desktop`: `Mobile`
has a recorded size (0 bytes) but is still listed, because the source filters
on JS falsiness (`!pageSizes[d]`) and `0` is falsy. -/
theorem C2_counterexample :
    (sizeIssues aHome dir0).any (fun i =>
        i.type == "MISSING_DEVICE_SUPPORT" && i.devices == some ["Mobile", "Desktop"]) = true
    ∧ (collectPageSizes aHome.devices dir0 "home").any (fun e => e.1 == "Mobile") = true
    ∧ (aHome.devices.filter (fun d =>
        !((collectPageSizes aHome.devices dir0 "home").any (fun e => e.1 == d)))
          == ["Desktop"]) = true
    ∧ ((some ["Mobile", "Desktop"] : Option (List String)) == some ["Desktop"]) = false := by
  exact ⟨by decide, by decide, by decide, by decide⟩

/-- C2 (amended): for every configured page, Phase 1 emits a
`MISSING_DEVICE_SUPPORT` issue with severity `HIGH` exactly when the number
of devices with a recorded size is strictly less than 4, and the issue's
`devices` field lists exactly those configured device names whose recorded
size is absent **or zero** (JS falsiness of `0`); with sizes recorded for
all 4 devices, no such issue is emitted for that page. -/
theorem C2_missing_device_support_amended :
    (∀ (a : VisualAnalyzer) (dir : DirState) (page : String),
        page ∈ a.pages →
        ((∃ i, i ∈ sizeIssues a dir ∧ i.type = "MISSING_DEVICE_SUPPORT"
            ∧ i.severity = "HIGH" ∧ i.page = some page) ↔
          (collectPageSizes a.devices dir page).length < 4))
    ∧ (∀ (a : VisualAnalyzer) (dir : DirState) (page : String) (i : Issue),
        i ∈ sizeIssues a dir → i.type = "MISSING_DEVICE_SUPPORT" → i.page = some page →
        i.devices = some (a.devices.filter
          (fun d => !(jsTruthy (objGet (collectPageSizes a.devices dir page) d)))))
    ∧ (sizeIssues aHome dirAll4).any (fun i => i.type == "MISSING_DEVICE_SUPPORT") = false := by
  refine ⟨?_, ?_, by decide⟩
  · intro a dir page hpage
    constructor
    · rintro ⟨i, hi, htype, hsev, hpg⟩
      obtain ⟨q, hq, hiq⟩ := mem_sizeIssues.mp hi
      rcases mem_sizeChecksFor.mp hiq with ⟨hlen, rfl⟩ | ⟨_, _, rfl⟩
      · have hqp : q = page := by simpa [mdsIssue] using hpg
        subst hqp
        exact hlen
      · exact absurd htype (by simp [liIssue])
    · intro hlen
      refine ⟨mdsIssue a (collectPageSizes a.devices dir page) page, ?_, rfl, rfl, rfl⟩
      exact mem_sizeIssues.mpr ⟨page, hpage, mem_sizeChecksFor.mpr (Or.inl ⟨hlen, rfl⟩)⟩
  · intro a dir page i hi htype hpg
    obtain ⟨q, hq, hiq⟩ := mem_sizeIssues.mp hi
    rcases mem_sizeChecksFor.mp hiq with ⟨hlen, rfl⟩ | ⟨_, _, rfl⟩
    · have hqp : q = page := by simpa [mdsIssue] using hpg
      subst hqp
      rfl
    · exact absurd htype (by simp [liIssue])

/-- Witness for the amended C2 at the reference configuration with an empty
directory: the coverage equivalence applied at page `addpagehere`. -/
theorem C2_witness :
    ∃ i, i ∈ sizeIssues VisualAnalyzer.new (some []) ∧ i.type = "MISSING_DEVICE_SUPPORT"
      ∧ i.severity = "HIGH" ∧ i.page = some "addpagehere" :=
  (C2_missing_device_support_amended.1 VisualAnalyzer.new (some []) "addpagehere"
    (by decide)).mpr (by decide)

/-- C3: Phase 2 iterates devices outer and pages inner; an issue is in its
output iff it is the `MISSING_BASELINE` issue (severity `HIGH`, with the
page, the device, the description `Missing baseline for {device} {page}` and
the exact expected filename) of a configured device/page combination whose
expected file is absent. With the reference configuration and zero files
present this yields exactly 20 issues, in device-outer/page-inner order. -/
theorem C3_missing_baseline_enumeration :
    (∀ (a : VisualAnalyzer) (dir : DirState) (i : Issue),
        i ∈ missingFileIssues a dir ↔
          ∃ device, device ∈ a.devices ∧ ∃ page, page ∈ a.pages ∧
            existsSync dir (expectedFilename device page) = false ∧
            i = missingBaselineIssue device page)
    ∧ (∀ device page,
        (missingBaselineIssue device page).type = "MISSING_BASELINE"
        ∧ (missingBaselineIssue device page).severity = "HIGH"
        ∧ (missingBaselineIssue device page).page = some page
        ∧ (missingBaselineIssue device page).device = some device
        ∧ (missingBaselineIssue device page).description
            = "Missing baseline for " ++ device ++ " " ++ page
        ∧ (missingBaselineIssue device page).filename
            = some (device ++ "-" ++ page ++ "-baseline.png"))
    ∧ missingFileIssues VisualAnalyzer.new (some [])
        = (["Mobile", "Mobile-Large", "Tablet", "Desktop"].flatMap
            (fun device => List.replicate 5 (missingBaselineIssue device "addpagehere")))
    ∧ (missingFileIssues VisualAnalyzer.new (some [])).length = 20 := by
  exact ⟨fun a dir i => mem_missingFileIssues,
    fun device page => ⟨rfl, rfl, rfl, rfl, rfl, rfl⟩, by decide, by decide⟩

/-- Witness for C3: the `Mobile`/`addpagehere` combination is missing from an
empty directory and its issue is in the Phase-2 output. -/
theorem C3_witness :
    missingBaselineIssue "Mobile" "addpagehere" ∈ missingFileIssues VisualAnalyzer.new (some []) :=
  (C3_missing_baseline_enumeration.1 VisualAnalyzer.new (some []) _).mpr
    ⟨"Mobile", by decide, "addpagehere", by decide, by decide, rfl⟩

/-- C4: after a full successful `analyze` run from an empty issue list, every
issue has severity `HIGH` or `MEDIUM` (no rule produces `LOW`), and the
printed summary's `Total Issues` equals the issue list's length and equals
`Critical Issues` (`HIGH`) plus `Medium Issues` (`MEDIUM`). -/
theorem C4_severity_and_summary :
    ∀ (a : VisualAnalyzer) (dir : DirState) (issues : List Issue)
      (a' : VisualAnalyzer) (s : Summary),
      a.issues = [] →
      a.analyze dir = Except.ok (issues, a', s) →
      (∀ i, i ∈ issues → i.severity = "HIGH" ∨ i.severity = "MEDIUM")
      ∧ s.totalIssues = issues.length
      ∧ s.totalIssues = s.criticalCount + s.mediumCount := by
  intro a dir issues a' s hempty hok
  cases dir with
  | none =>
    simp [VisualAnalyzer.analyze, analyzeLayoutPatterns, readdirSync] at hok
  | some entries =>
    simp only [VisualAnalyzer.analyze, analyzeSizes, checkMissingFiles, analyzeLayoutPatterns,
      readdirSync, generateRecommendations, Except.ok.injEq, Prod.mk.injEq] at hok
    obtain ⟨hIssues, hA, hS⟩ := hok
    have hsev : ∀ i ∈ issues, i.severity = "HIGH" ∨ i.severity = "MEDIUM" := by
      intro i hi
      rw [← hIssues, hempty] at hi
      simp only [List.nil_append] at hi
      rcases List.mem_append.mp hi with hi' | hi'
      · rcases List.mem_append.mp hi' with hi'' | hi''
        · exact sev_of_mem_sizeIssues hi''
        · exact Or.inl (sev_of_mem_missingFileIssues hi'')
      · exact sev_of_mem_layoutPatternIssues hi'
    have hsum := length_filter_high_add_medium issues hsev
    refine ⟨hsev, ?_, ?_⟩
    · rw [← hS, ← hIssues]
    · rw [← hS]
      rw [← hIssues] at hsum
      exact hsum.symm

/-- Witness for C4: a run under the hand-edited `aW` configuration on `dirW`
succeeds with an empty issue list and the all-zero summary. -/
theorem C4_witness :
    (∀ i, i ∈ ([] : List Issue) → i.severity = "HIGH" ∨ i.severity = "MEDIUM")
    ∧ sW.totalIssues = ([] : List Issue).length
    ∧ sW.totalIssues = sW.criticalCount + sW.mediumCount :=
  C4_severity_and_summary aW dirW [] aW sW rfl rfl

/-- C5: when the configured baseline directory does not exist, `analyze`
fails with the uncaught `ENOENT` error raised by the Phase-3 directory
listing; the error propagates to the top-level invocation (which reports it
instead of completing) and the completion line is never printed. -/
theorem C5_missing_directory_fatal :
    (∀ a : VisualAnalyzer,
        a.analyze none
          = Except.error (enoentMessage, checkMissingFiles (analyzeSizes a none) none))
    ∧ readdirSync none = Except.error enoentMessage
    ∧ runMain none = RunOutcome.failed enoentMessage
    ∧ completionPrinted (runMain none) = false :=
  ⟨fun _ => rfl, rfl, rfl, rfl⟩

/-- Witness for C5: the failure equation at the reference configuration. -/
theorem C5_witness :
    VisualAnalyzer.new.analyze none
      = Except.error
          (enoentMessage, checkMissingFiles (analyzeSizes VisualAnalyzer.new none) none) :=
  C5_missing_directory_fatal.1 VisualAnalyzer.new

/-- C6: Phase 3 emits a `MOBILE_NAV_MISSING` issue with severity `HIGH` iff
the directory listing contains no file name that includes both `nav` and
`Mobile`; a directory holding only `Desktop-home-baseline.png` yields the
issue, and adding `Mobile-navbar-baseline.png` suppresses it. -/
theorem C6_mobile_nav_missing :
    (∀ names : List String,
        ((layoutPatternIssues names).any
            (fun i => i.type == "MOBILE_NAV_MISSING" && i.severity == "HIGH") = true ↔
          ∀ f, f ∈ names → ¬(strIncludes f "nav" = true ∧ strIncludes f "Mobile" = true)))
    ∧ (∃ a', analyzeLayoutPatterns VisualAnalyzer.new dirD = Except.ok a'
        ∧ a'.issues.any (fun i => i.type == "MOBILE_NAV_MISSING") = true)
    ∧ (∃ a', analyzeLayoutPatterns VisualAnalyzer.new dirDM = Except.ok a'
        ∧ a'.issues.any (fun i => i.type == "MOBILE_NAV_MISSING") = false) := by
  refine ⟨?_, ⟨_, rfl, by decide⟩, ⟨_, rfl, by decide⟩⟩
  intro names
  rw [List.any_eq_true]
  constructor
  · rintro ⟨i, hi, hp⟩
    rcases mem_layoutPatternIssues.mp hi with ⟨hlen, rfl⟩ | ⟨_, rfl⟩
    · intro f hf hconj
      have hmem : f ∈ names.filter (fun f => strIncludes f "nav" && strIncludes f "Mobile") :=
        List.mem_filter.mpr ⟨hf, by rw [hconj.1, hconj.2]; rfl⟩
      rw [List.length_eq_zero] at hlen
      rw [hlen] at hmem
      exact absurd hmem (List.not_mem_nil f)
    · exact absurd hp (by simp [incompleteHomepageIssue])
  · intro h
    refine ⟨mobileNavIssue, ?_, rfl⟩
    apply mem_layoutPatternIssues.mpr
    refine Or.inl ⟨?_, rfl⟩
    rw [List.length_eq_zero, List.filter_eq_nil_iff]
    intro f hf hc
    rw [Bool.and_eq_true] at hc
    exact h f hf ⟨hc.1, hc.2⟩

/-- Witness for C6: the equivalence applied to the one-file listing. -/
theorem C6_witness :
    (layoutPatternIssues ["Desktop-home-baseline.png"]).any
        (fun i => i.type == "MOBILE_NAV_MISSING" && i.severity == "HIGH") = true :=
  (C6_mobile_nav_missing.1 ["Desktop-home-baseline.png"]).mpr (by decide)

/-- C7: Phase 3 emits an `INCOMPLETE_HOMEPAGE_TESTING` issue with severity
`MEDIUM` iff strictly fewer than 4 file names contain both `homepage` and
`baseline`; with exactly 3 such names the issue is emitted, with 4 it is
not. -/
theorem C7_incomplete_homepage :
    (∀ names : List String,
        ((layoutPatternIssues names).any
            (fun i => i.type == "INCOMPLETE_HOMEPAGE_TESTING" && i.severity == "MEDIUM") = true ↔
          (names.filter (fun f => strIncludes f "homepage" && strIncludes f "baseline")).length < 4))
    ∧ (names3.filter (fun f => strIncludes f "homepage" && strIncludes f "baseline")).length = 3
    ∧ (layoutPatternIssues names3).any (fun i => i.type == "INCOMPLETE_HOMEPAGE_TESTING") = true
    ∧ (names4.filter (fun f => strIncludes f "homepage" && strIncludes f "baseline")).length = 4
    ∧ (layoutPatternIssues names4).any (fun i => i.type == "INCOMPLETE_HOMEPAGE_TESTING") = false := by
  refine ⟨?_, by decide, by decide, by decide, by decide⟩
  intro names
  rw [List.any_eq_true]
  constructor
  · rintro ⟨i, hi, hp⟩
    rcases mem_layoutPatternIssues.mp hi with ⟨_, rfl⟩ | ⟨hlen, rfl⟩
    · exact absurd hp (by simp [mobileNavIssue])
    · exact hlen
  · intro hlen
    exact ⟨incompleteHomepageIssue, mem_layoutPatternIssues.mpr (Or.inr ⟨hlen, rfl⟩), rfl⟩

/-- Witness for C7: the equivalence applied to the 3-file listing. -/
theorem C7_witness :
    (layoutPatternIssues names3).any
        (fun i => i.type == "INCOMPLETE_HOMEPAGE_TESTING" && i.severity == "MEDIUM") = true :=
  (C7_incomplete_homepage.1 names3).mpr (by decide)

/-- Phase 2 reads only the configuration (devices, pages), never the issue
accumulator, so updating `issues` does not change its output. -/
theorem missingFileIssues_set_issues (a : VisualAnalyzer) (x : List Issue) (dir : DirState) :
    missingFileIssues { a with issues := x } dir = missingFileIssues a dir := rfl

/-- C8: the issue list starts empty at construction; each phase only appends
(Phase 4 appends nothing and leaves the analyzer unchanged); a successful
`analyze` returns the accumulated list, which decomposes as Phase-1 issues,
then Phase-2 issues, then Phase-3 issues, in that order, after the initial
list. -/
theorem C8_append_only_pipeline :
    VisualAnalyzer.new.issues = []
    ∧ (∀ (a : VisualAnalyzer) (dir : DirState),
        ∃ t, (analyzeSizes a dir).issues = a.issues ++ t)
    ∧ (∀ (a : VisualAnalyzer) (dir : DirState),
        ∃ t, (checkMissingFiles a dir).issues = a.issues ++ t)
    ∧ (∀ (a : VisualAnalyzer) (dir : DirState) (a' : VisualAnalyzer),
        analyzeLayoutPatterns a dir = Except.ok a' → ∃ t, a'.issues = a.issues ++ t)
    ∧ (∀ a : VisualAnalyzer, (generateRecommendations a).1 = a)
    ∧ (∀ (a : VisualAnalyzer) (dir : DirState) (issues : List Issue)
        (a' : VisualAnalyzer) (s : Summary),
        a.analyze dir = Except.ok (issues, a', s) →
        issues = a'.issues
        ∧ ∃ names, readdirSync dir = Except.ok names
            ∧ issues = a.issues ++ sizeIssues a dir ++ missingFileIssues a dir
                ++ layoutPatternIssues names) := by
  refine ⟨rfl, fun a dir => ⟨sizeIssues a dir, rfl⟩, fun a dir => ⟨missingFileIssues a dir, rfl⟩,
    ?_, fun a => rfl, ?_⟩
  · intro a dir a' hok
    cases dir with
    | none => simp [analyzeLayoutPatterns, readdirSync] at hok
    | some entries =>
      simp only [analyzeLayoutPatterns, readdirSync, Except.ok.injEq] at hok
      exact ⟨layoutPatternIssues (entries.map (fun e => e.1)), by rw [← hok]⟩
  · intro a dir issues a' s hok
    cases dir with
    | none => simp [VisualAnalyzer.analyze, analyzeLayoutPatterns, readdirSync] at hok
    | some entries =>
      simp only [VisualAnalyzer.analyze, analyzeSizes, checkMissingFiles, analyzeLayoutPatterns,
        readdirSync, generateRecommendations, Except.ok.injEq, Prod.mk.injEq] at hok
      obtain ⟨hIssues, hA, hS⟩ := hok
      constructor
      · rw [← hIssues, ← hA]
      · refine ⟨entries.map (fun e => e.1), ?_, ?_⟩
        · rfl
        · rw [← hIssues, missingFileIssues_set_issues]

/-- Witness for C8: the decomposition at the `aW` run on `dirW`. -/
theorem C8_witness :
    ([] : List Issue) = aW.issues
    ∧ ∃ names, readdirSync dirW = Except.ok names
        ∧ ([] : List Issue) = aW.issues ++ sizeIssues aW dirW ++ missingFileIssues aW dirW
            ++ layoutPatternIssues names :=
  C8_append_only_pipeline.2.2.2.2.2 aW dirW [] aW sW rfl

/-- C9: when the baseline directory does not exist, Phases 1 and 2 complete
without error (every stat is behind an existence guard, embedded as total
functions), so the state carried by the Phase-3 `ENOENT` failure already
holds every Phase-1 and Phase-2 issue: with the reference configuration,
5 `MISSING_DEVICE_SUPPORT` issues and 20 `MISSING_BASELINE` issues (25 in
all) — the failure does not leave the analyzer state unchanged. -/
theorem C9_partial_state_on_failure :
    ∃ st : VisualAnalyzer,
      VisualAnalyzer.new.analyze none = Except.error (enoentMessage, st)
      ∧ st.issues
          = sizeIssues VisualAnalyzer.new none ++ missingFileIssues VisualAnalyzer.new none
      ∧ (st.issues.filter (fun i => i.type == "MISSING_DEVICE_SUPPORT")).length = 5
      ∧ (st.issues.filter (fun i => i.type == "MISSING_BASELINE")).length = 20
      ∧ st.issues.length = 25
      ∧ st.issues.isEmpty = false :=
  ⟨checkMissingFiles (analyzeSizes VisualAnalyzer.new none) none,
    rfl, by decide, by decide, by decide, by decide, by decide⟩

/-- C10: Phase 1's per-page checks run once per page-list entry, not once per
distinct page name: whenever a page's collected size map records fewer than
4 devices, the number of `MISSING_DEVICE_SUPPORT` issues for that page
equals the page name's multiplicity in the configured list. The `sizes`
object itself collapses the five identical reference entries to a single
key, yet with no matching files present exactly five identical issues are
appended. -/
theorem C10_duplicate_pages :
    (∀ (a : VisualAnalyzer) (dir : DirState) (p : String),
        (collectPageSizes a.devices dir p).length < 4 →
        ((sizeIssues a dir).filter
            (fun i => i.type == "MISSING_DEVICE_SUPPORT" && i.page == some p)).length
          = a.pages.count p)
    ∧ (buildSizes VisualAnalyzer.new (some [])).length = 1
    ∧ sizeIssues VisualAnalyzer.new (some [])
        = List.replicate 5 (mdsIssue VisualAnalyzer.new [] "addpagehere")
    ∧ mdsIssue VisualAnalyzer.new [] "addpagehere"
        = { type := "MISSING_DEVICE_SUPPORT", severity := "HIGH"
          , description := "addpagehere page missing on some devices"
          , page := some "addpagehere"
          , devices := some ["Mobile", "Mobile-Large", "Tablet", "Desktop"] } := by
  refine ⟨?_, by decide, by decide, by decide⟩
  intro a dir p hlt
  rw [sizeIssues_eq]
  suffices h : ∀ ps : List String,
      ((ps.flatMap (fun q => sizeChecksFor a (collectPageSizes a.devices dir q) q)).filter
          (fun i => i.type == "MISSING_DEVICE_SUPPORT" && i.page == some p)).length
        = ps.count p by
    exact h a.pages
  intro ps
  induction ps with
  | nil => rfl
  | cons q rest ih =>
    rw [List.flatMap_cons, List.filter_append, List.length_append, ih, List.count_cons]
    have hhead : ((sizeChecksFor a (collectPageSizes a.devices dir q) q).filter
        (fun i => i.type == "MISSING_DEVICE_SUPPORT" && i.page == some p)).length
        = if (q == p) = true then 1 else 0 := by
      by_cases hqp : q = p
      · subst hqp
        rw [if_pos (by simp)]
        unfold sizeChecksFor
        rw [if_pos hlt]
        by_cases h2 :
            1 < ((collectPageSizes a.devices dir q).map (fun e => e.2)).length <;>
          by_cases h3 :
            ratioGT3 (listMax ((collectPageSizes a.devices dir q).map (fun e => e.2)))
              (listMin ((collectPageSizes a.devices dir q).map (fun e => e.2))) = true <;>
          simp [h2, h3, List.filter_append, mdsIssue, liIssue]
      · rw [if_neg (by simp [hqp])]
        have hnil : (sizeChecksFor a (collectPageSizes a.devices dir q) q).filter
            (fun i => i.type == "MISSING_DEVICE_SUPPORT" && i.page == some p) = [] := by
          rw [List.filter_eq_nil_iff]
          intro i hi
          have hp := page_of_mem_sizeChecksFor hi
          simp [Bool.and_eq_true, hp, hqp]
        rw [hnil]
        rfl
    rw [hhead]
    exact Nat.add_comm _ _

/-- Witness for C10: five `MISSING_DEVICE_SUPPORT` issues for the
five-fold-repeated placeholder page of the reference configuration. -/
theorem C10_witness :
    ((sizeIssues VisualAnalyzer.new (some [])).filter
        (fun i => i.type == "MISSING_DEVICE_SUPPORT" && i.page == some "addpagehere")).length
      = VisualAnalyzer.new.pages.count "addpagehere" :=
  C10_duplicate_pages.1 VisualAnalyzer.new (some []) "addpagehere" (by decide)
